import Mathlib

/-!
Verification of the resilience layer of BarrierefreiCheck
(api/app/services/resilience.py, api/app/services/cache.py,
api/app/utils/retry.py).

The Python code is shallowly embedded: the async circuit breaker is a pure
state machine with explicit state passing (the asyncio lock serialises the
critical sections, so each critical section is one atomic step here); wall
clock times (Python floats from time.time) are modelled as integers passed
in explicitly; delays computed over floats are modelled as rationals; the
external Redis store is abstracted by the outcome of each store access.
-/

namespace BarrierefreiCheck

/-- States of the circuit breaker, from the CircuitState enum:
CLOSED (normal operation), OPEN (failing, reject calls),
HALF_OPEN (testing if service recovered). -/
inductive CircuitState
  | closed
  | opened
  | half_open
deriving DecidableEq, Repr

/-- The mutable fields of the CircuitBreaker class together with its
configuration, as set up in CircuitBreaker.__init__. -/
structure CircuitBreaker where
  name : String
  failure_threshold : Nat
  recovery_timeout : Int
  state : CircuitState := .closed
  failure_count : Nat := 0
  last_failure_time : Option Int := none
deriving DecidableEq, Repr

/-- CircuitBreaker._should_allow_request, taking the current clock reading.
Returns the decision and the (possibly updated) breaker. The Python guard
`if self._last_failure_time and ...` is a None check: time.time() is always
positive in the running program. -/
def should_allow_request (b : CircuitBreaker) (now : Int) :
    Bool × CircuitBreaker :=
  match b.state with
  | .closed => (true, b)
  | .opened =>
    match b.last_failure_time with
    | some t =>
      if now - t ≥ b.recovery_timeout then
        (true, { b with state := .half_open })
      else
        (false, b)
    | none => (false, b)
  | .half_open => (true, b)

/-- CircuitBreaker._record_success. -/
def record_success (b : CircuitBreaker) : CircuitBreaker :=
  let b1 := { b with failure_count := 0 }
  if b1.state = .half_open then { b1 with state := .closed } else b1

/-- CircuitBreaker._record_failure, taking the clock reading stored into
last_failure_time. -/
def record_failure (b : CircuitBreaker) (now : Int) : CircuitBreaker :=
  let b1 := { b with failure_count := b.failure_count + 1,
                     last_failure_time := some now }
  if b1.state = .half_open then { b1 with state := .opened }
  else if b1.failure_count ≥ b1.failure_threshold then
    { b1 with state := .opened }
  else b1

/-- CircuitBreaker.reset. -/
def reset (b : CircuitBreaker) : CircuitBreaker :=
  { b with state := .closed, failure_count := 0, last_failure_time := none }

/-- A sequence of consecutive recorded failures at the given times. -/
def record_failures (b : CircuitBreaker) (ts : List Int) : CircuitBreaker :=
  ts.foldl record_failure b

/-- Outcome of one pass through the wrapper produced by
CircuitBreaker.__call__: the call is rejected with CircuitBreakerError,
or the wrapped operation returns a value, or the wrapped operation raises
and the exception is re-raised. -/
inductive CallOutcome (α : Type)
  | rejected
  | ok (a : α)
  | failed
deriving DecidableEq, Repr

/-- The wrapper produced by CircuitBreaker.__call__. The wrapped operation
is abstracted by its result (Except.error is an exception matched by
expected_exceptions, which defaults to all exceptions); `now` is the clock
at the admission check and `failTime` the clock at a failure recording.
Returns the outcome, the breaker after the call, and how many times the
wrapped operation was invoked. -/
def breaker_call (b : CircuitBreaker) (now : Int) (op : Except Unit α)
    (failTime : Int) : CallOutcome α × CircuitBreaker × Nat :=
  match should_allow_request b now with
  | (false, b1) => (.rejected, b1, 0)
  | (true, b1) =>
    match op with
    | .ok a => (.ok a, record_success b1, 1)
    | .error _ => (.failed, record_failure b1 failTime, 1)

/-- The redis breaker as configured in resilience.py
(failure_threshold=3, recovery_timeout=10). -/
def redis_circuit_breaker : CircuitBreaker :=
  { name := "redis", failure_threshold := 3, recovery_timeout := 10 }

/-- The database breaker as configured in resilience.py
(failure_threshold=2, recovery_timeout=5). -/
def database_circuit_breaker : CircuitBreaker :=
  { name := "database", failure_threshold := 2, recovery_timeout := 5 }

/-! Cache service (cache.py). Each Redis access is abstracted by its
outcome; the functions below thread the redis circuit breaker state
explicitly, mirroring the simplified synchronous breaker bookkeeping that
cache.py performs on redis_circuit_breaker. -/

/-- Outcome of the Redis read performed by cache_get: the client was
unavailable (get_redis_client returned None), the key held a truthy value
that JSON-decoded to `a`, the key was absent (falsy reply), the stored
string failed JSON decoding, or the read raised redis.RedisError. -/
inductive ReadResult (α : Type)
  | unavailable
  | found (a : α)
  | absent
  | decode_error
  | store_error
deriving DecidableEq, Repr

/-- Outcome of a Redis write: client unavailable, success, or an error
caught by the handler (redis.RedisError, or TypeError for cache_set). -/
inductive WriteResult
  | unavailable
  | ok
  | write_error
deriving DecidableEq, Repr

/-- cache_get. Returns the cached value (None on any miss or degradation),
the redis breaker after the call, and the number of store accesses made.
On redis.RedisError it performs the simplified breaker failure recording
written inline in cache.py: increment the count and open the breaker once
the threshold is reached, stamping last_failure_time with the clock. -/
def cache_get (b : CircuitBreaker) (read : ReadResult α) (now : Int) :
    Option α × CircuitBreaker × Nat :=
  if b.state = .opened then (none, b, 0)
  else
    match read with
    | .unavailable => (none, b, 0)
    | .found a => (some a, b, 1)
    | .absent => (none, b, 1)
    | .decode_error => (none, b, 1)
    | .store_error =>
      let b1 := { b with failure_count := b.failure_count + 1 }
      let b2 := if b1.failure_count ≥ b1.failure_threshold then
          { b1 with state := .opened, last_failure_time := some now }
        else b1
      (none, b2, 1)

/-- cache_set. Returns whether the value was cached and the breaker after
the call. Success resets the failure count; an error records a failure
with the same inline bookkeeping as cache_get. -/
def cache_set (b : CircuitBreaker) (write : WriteResult) (now : Int) :
    Bool × CircuitBreaker :=
  if b.state = .opened then (false, b)
  else
    match write with
    | .unavailable => (false, b)
    | .ok => (true, { b with failure_count := 0 })
    | .write_error =>
      let b1 := { b with failure_count := b.failure_count + 1 }
      let b2 := if b1.failure_count ≥ b1.failure_threshold then
          { b1 with state := .opened, last_failure_time := some now }
        else b1
      (false, b2)

/-- cache_delete. Success resets the failure count; on redis.RedisError it
only increments the failure count, without the threshold check that
cache_get and cache_set perform. -/
def cache_delete (b : CircuitBreaker) (write : WriteResult) :
    Bool × CircuitBreaker :=
  if b.state = .opened then (false, b)
  else
    match write with
    | .unavailable => (false, b)
    | .ok => (true, { b with failure_count := 0 })
    | .write_error => (false, { b with failure_count := b.failure_count + 1 })

/-- Outcome of the blacklist membership lookup in is_token_blacklisted:
client unavailable, key present (exists > 0), key absent, or the lookup
raised redis.RedisError. -/
inductive BlacklistLookup
  | unavailable
  | found
  | absent
  | store_error
deriving DecidableEq, Repr

/-- is_token_blacklisted. The token only selects the store key, so the
store is abstracted by the outcome of looking that key up; fail_closed
defaults to true as in the Python signature. -/
def is_token_blacklisted (_token : String) (lookup : BlacklistLookup)
    (fail_closed : Bool := true) : Bool :=
  match lookup with
  | .unavailable => if fail_closed then true else false
  | .found => true
  | .absent => false
  | .store_error => if fail_closed then true else false

/-- Outcome of reading the companion metadata key in cache_get_with_stale:
the metadata string was truthy and parsed to this integer, it was absent
or falsy, or the read raised redis.RedisError (caught by the outer
handler). -/
inductive MetaRead
  | found (original_ttl : Int)
  | absent
  | store_error
deriving DecidableEq, Repr

/-- cache_get_with_stale. `read` abstracts the pipelined GET of the value,
`ttl` is the pipelined TTL reply, `meta` the read of the companion key
holding the original TTL. Staleness follows the source: stale_threshold =
original_ttl * 0.2 and is_stale = ttl > 0 and ttl < stale_threshold,
with the float arithmetic carried out over the rationals. -/
def cache_get_with_stale (read : ReadResult α) (ttl : Int) (meta : MetaRead) :
    Option α × Bool :=
  match read with
  | .unavailable => (none, false)
  | .absent => (none, false)
  | .decode_error => (none, false)
  | .store_error => (none, false)
  | .found a =>
    match meta with
    | .store_error => (none, false)
    | .absent => (some a, false)
    | .found original_ttl =>
      let stale_threshold : ℚ := (original_ttl : ℚ) * (1 / 5)
      (some a, decide (0 < ttl ∧ (ttl : ℚ) < stale_threshold))

/-! Retry with exponential backoff (resilience.py retry_with_backoff,
retry.py RetryConfig.get_delay). The wrapped operation is abstracted as a
function from the attempt number to its outcome on that attempt; errors
carry a payload so that propagation of the original exception is visible. -/

/-- Outcome of one invocation of the operation wrapped by
retry_with_backoff: a result, an exception matched by the configured
retryable tuple, or any other exception. -/
inductive Outcome (ε α : Type)
  | ok (a : α)
  | retryable (e : ε)
  | non_retryable (e : ε)
deriving DecidableEq, Repr

/-- What the wrapper returns to its caller: the result of a successful
attempt, or the exception it re-raises. -/
inductive RetryResult (ε α : Type)
  | ok (a : α)
  | err (e : ε)
deriving DecidableEq, Repr

/-- RetryConfig.get_delay and the inline delay computation of
retry_with_backoff: min(base_delay * (exponential_base ** attempt),
max_delay), over the rationals. -/
def get_delay (base_delay max_delay exponential_base : ℚ) (attempt : Nat) :
    ℚ :=
  min (base_delay * exponential_base ^ attempt) max_delay

/-- The loop body of retry_with_backoff: `attempt` is the current index of
the Python `for attempt in range(max_retries + 1)` loop and `remaining`
the number of loop iterations still to come after this one (so
remaining = 0 exactly when attempt == max_retries). Returns the final
result, the number of invocations of the operation, and the list of
delays slept between consecutive attempts. -/
def retry_go (base_delay max_delay exponential_base : ℚ)
    (op : Nat → Outcome ε α) :
    Nat → Nat → RetryResult ε α × Nat × List ℚ
  | attempt, 0 =>
    (match op attempt with
     | .ok a => .ok a
     | .retryable e => .err e
     | .non_retryable e => .err e, 1, [])
  | attempt, remaining + 1 =>
    match op attempt with
    | .ok a => (.ok a, 1, [])
    | .non_retryable e => (.err e, 1, [])
    | .retryable _ =>
      let delay := min (base_delay * exponential_base ^ attempt) max_delay
      let rest := retry_go base_delay max_delay exponential_base op
        (attempt + 1) remaining
      (rest.1, rest.2.1 + 1, delay :: rest.2.2)

/-- retry_with_backoff applied to an operation: run the attempt loop from
attempt 0 with max_retries further iterations available. -/
def retry_with_backoff (max_retries : Nat)
    (base_delay max_delay exponential_base : ℚ) (op : Nat → Outcome ε α) :
    RetryResult ε α × Nat × List ℚ :=
  retry_go base_delay max_delay exponential_base op 0 max_retries

/-! The circuit breaker wrappers with fallback (resilience.py
with_circuit_breaker and sync_with_circuit_breaker). The Python
fallback_value of type Any defaulting to None is an Option here;
`fallback_value is not None` is Option.isSome. -/

/-- with_circuit_breaker: apply the breaker wrapper and, when it raises
CircuitBreakerError, return the fallback value if one was provided
(is not None), else re-raise. -/
def with_circuit_breaker_call (b : CircuitBreaker)
    (fallback_value : Option α) (now : Int) (op : Except Unit α)
    (failTime : Int) : CallOutcome α × CircuitBreaker × Nat :=
  match breaker_call b now op failTime with
  | (.rejected, b1, n) =>
    match fallback_value with
    | some v => (.ok v, b1, n)
    | none => (.rejected, b1, n)
  | r => r

/-- The attempt half of sync_with_circuit_breaker: invoke the operation
and record the outcome inline on the breaker fields. -/
def sync_attempt (b : CircuitBreaker) (op : Except Unit α)
    (failTime : Int) : CallOutcome α × CircuitBreaker × Nat :=
  match op with
  | .ok a =>
    let b1 := { b with failure_count := 0 }
    let b2 := if b1.state = .half_open then { b1 with state := .closed }
      else b1
    (.ok a, b2, 1)
  | .error _ =>
    let b1 := { b with failure_count := b.failure_count + 1,
                       last_failure_time := some failTime }
    let b2 := if b1.state = .half_open then { b1 with state := .opened }
      else if b1.failure_count ≥ b1.failure_threshold then
        { b1 with state := .opened }
      else b1
    (.failed, b2, 1)

/-- sync_with_circuit_breaker: the synchronous wrapper, checking the
breaker state inline. As in should_allow_request, the Python guard
`if breaker._last_failure_time and ...` is a None check. -/
def sync_with_circuit_breaker_call (b : CircuitBreaker)
    (fallback_value : Option α) (now : Int) (op : Except Unit α)
    (failTime : Int) : CallOutcome α × CircuitBreaker × Nat :=
  if b.state = .opened then
    match b.last_failure_time with
    | some t =>
      if now - t ≥ b.recovery_timeout then
        sync_attempt { b with state := .half_open } op failTime
      else
        match fallback_value with
        | some v => (.ok v, b, 0)
        | none => (.rejected, b, 0)
    | none =>
      match fallback_value with
      | some v => (.ok v, b, 0)
      | none => (.rejected, b, 0)
  else sync_attempt b op failTime

/-! Helper lemmas about single failure recordings and failure sequences. -/

/-- Recording a failure below the threshold while Closed only bumps the
count and stamps the failure time. -/
lemma record_failure_of_closed_lt (b : CircuitBreaker) (t : Int)
    (hs : b.state = .closed)
    (hlt : b.failure_count + 1 < b.failure_threshold) :
    record_failure b t
      = { b with failure_count := b.failure_count + 1,
                 last_failure_time := some t } := by
  have h1 : ¬ (b.failure_count + 1 ≥ b.failure_threshold) := by omega
  simp [record_failure, hs, h1]

/-- Recording a failure that reaches the threshold while Closed opens the
breaker. -/
lemma record_failure_of_closed_ge (b : CircuitBreaker) (t : Int)
    (hs : b.state = .closed)
    (hge : b.failure_count + 1 ≥ b.failure_threshold) :
    record_failure b t
      = { b with state := .opened,
                 failure_count := b.failure_count + 1,
                 last_failure_time := some t } := by
  simp [record_failure, hs, hge]

/-- A failure sequence that stays strictly below the threshold keeps the
breaker Closed, accumulates the count, and preserves the configuration. -/
lemma record_failures_below_threshold (ts : List Int) :
    ∀ b : CircuitBreaker, b.state = .closed →
      b.failure_count + ts.length < b.failure_threshold →
      (record_failures b ts).state = .closed
        ∧ (record_failures b ts).failure_count = b.failure_count + ts.length
        ∧ (record_failures b ts).failure_threshold = b.failure_threshold := by
  induction ts with
  | nil =>
    intro b hs _
    simp [record_failures, hs]
  | cons t ts ih =>
    intro b hs hlt
    have hlen : (t :: ts).length = ts.length + 1 := by simp
    have hlt1 : b.failure_count + 1 < b.failure_threshold := by
      rw [hlen] at hlt; omega
    have hstep := record_failure_of_closed_lt b t hs hlt1
    have hrec := ih { b with failure_count := b.failure_count + 1,
                             last_failure_time := some t }
      (by simp [hs]) (by simp; rw [hlen] at hlt; omega)
    rw [record_failures, List.foldl_cons, hstep]
    rw [record_failures] at hrec
    refine ⟨hrec.1, ?_, ?_⟩
    · rw [hrec.2.1]; simp; omega
    · rw [hrec.2.2]

/-- Claim C1 (amended to require a positive failure threshold): a breaker
that is Closed with failure count 0 and has failure_threshold >= 1 is Open
with last_failure_time set after exactly failure_threshold consecutive
recorded failures, each failure incrementing the count; after fewer than
failure_threshold failures it is still Closed. -/
theorem open_after_threshold_failures (b : CircuitBreaker) (ts : List Int)
    (hs : b.state = .closed) (h0 : b.failure_count = 0)
    (hpos : 0 < b.failure_threshold) :
    (ts.length = b.failure_threshold →
      (record_failures b ts).state = .opened
        ∧ (record_failures b ts).last_failure_time.isSome
        ∧ (record_failures b ts).failure_count = b.failure_threshold)
  ∧ (ts.length < b.failure_threshold →
      (record_failures b ts).state = .closed
        ∧ (record_failures b ts).failure_count = ts.length) := by
  constructor
  · intro hlen
    rcases ts.eq_nil_or_concat with rfl | ⟨L, t, rfl⟩
    · simp at hlen; omega
    · have hL : L.length + 1 = b.failure_threshold := by
        simpa using hlen
      have hbelow := record_failures_below_threshold L b hs (by omega)
      have hfold : record_failures b (L.concat t)
          = record_failure (record_failures b L) t := by
        simp [record_failures, List.concat_eq_append]
      rw [hfold]
      have hge : (record_failures b L).failure_count + 1
          ≥ (record_failures b L).failure_threshold := by
        rw [hbelow.2.1, hbelow.2.2]; omega
      rw [record_failure_of_closed_ge _ t hbelow.1 hge]
      refine ⟨rfl, rfl, ?_⟩
      simp only [hbelow.2.1, h0]
      omega
  · intro hlen
    have hbelow := record_failures_below_threshold ts b hs (by omega)
    exact ⟨hbelow.1, by rw [hbelow.2.1, h0]; omega⟩

/-- Witness for open_after_threshold_failures: the redis breaker
(threshold 3), three failures open it, two leave it closed. -/
theorem open_after_threshold_failures_witness :
    ((record_failures redis_circuit_breaker [100, 101, 102]).state = .opened
      ∧ (record_failures redis_circuit_breaker
          [100, 101, 102]).last_failure_time.isSome
      ∧ (record_failures redis_circuit_breaker [100, 101, 102]).failure_count
          = redis_circuit_breaker.failure_threshold)
  ∧ ((record_failures redis_circuit_breaker [100, 101]).state = .closed
      ∧ (record_failures redis_circuit_breaker [100, 101]).failure_count
          = 2) := by
  refine ⟨?_, ?_⟩
  · exact (open_after_threshold_failures redis_circuit_breaker
      [100, 101, 102] rfl rfl (by decide)).1 (by decide)
  · exact (open_after_threshold_failures redis_circuit_breaker
      [100, 101] rfl rfl (by decide)).2 (by decide)

/-- Counterexample to claim C1 as stated: a breaker constructed with
failure_threshold = 0 is still Closed with last_failure_time unset after
exactly failure_threshold (that is, zero) consecutive failures. -/
theorem threshold_zero_counterexample :
    (List.length ([] : List Int))
        = ({ name := "degenerate", failure_threshold := 0,
             recovery_timeout := 10 } : CircuitBreaker).failure_threshold
  ∧ (record_failures
        { name := "degenerate", failure_threshold := 0,
          recovery_timeout := 10 } []).state ≠ .opened
  ∧ (record_failures
        { name := "degenerate", failure_threshold := 0,
          recovery_timeout := 10 } []).last_failure_time = none := by
  refine ⟨rfl, ?_, rfl⟩
  decide

/-- While Open within the recovery window, an admission check denies and
mutates nothing. -/
lemma should_allow_request_open_within (b : CircuitBreaker) (t now : Int)
    (hs : b.state = .opened) (hl : b.last_failure_time = some t)
    (ht : now - t < b.recovery_timeout) :
    should_allow_request b now = (false, b) := by
  unfold should_allow_request
  rw [hs, hl]
  dsimp only
  rw [if_neg (by omega)]

/-- A wrapped call against an Open breaker inside the recovery window is
rejected without invoking the operation or mutating the breaker. -/
lemma breaker_call_open_within (b : CircuitBreaker)
    (t now failTime : Int) (op : Except Unit α)
    (hs : b.state = .opened) (hl : b.last_failure_time = some t)
    (ht : now - t < b.recovery_timeout) :
    breaker_call b now op failTime = (.rejected, b, 0) := by
  unfold breaker_call
  rw [should_allow_request_open_within b t now hs hl ht]

/-- Claim C2: while the breaker is Open and the recovery timeout has not
elapsed since last_failure_time, a wrapped call is rejected with
CircuitBreakerError, the wrapped operation is invoked zero times, and the
breaker (state, failure_count, last_failure_time) is unchanged. -/
theorem open_breaker_rejects_within_timeout (b : CircuitBreaker)
    (t now failTime : Int) (op : Except Unit α)
    (hs : b.state = .opened) (hl : b.last_failure_time = some t)
    (ht : now - t < b.recovery_timeout) :
    breaker_call b now op failTime = (.rejected, b, 0) :=
  breaker_call_open_within b t now failTime op hs hl ht

/-- Witness for open_breaker_rejects_within_timeout: the redis breaker
opened at time 100, called at time 105 (timeout 10), is rejected. -/
theorem open_breaker_rejects_within_timeout_witness :
    breaker_call
        { redis_circuit_breaker with
          state := .opened, failure_count := 3,
          last_failure_time := some 100 }
        105 (Except.ok (0 : Nat)) 105
      = (.rejected,
         { redis_circuit_breaker with
           state := .opened, failure_count := 3,
           last_failure_time := some 100 }, 0) :=
  open_breaker_rejects_within_timeout _ 100 105 105 _ rfl rfl (by decide)

/-- Once the recovery timeout has elapsed, an admission check flips the
Open breaker to HalfOpen and admits. -/
lemma should_allow_request_open_elapsed (b : CircuitBreaker) (t now : Int)
    (hs : b.state = .opened) (hl : b.last_failure_time = some t)
    (ht : now - t ≥ b.recovery_timeout) :
    should_allow_request b now = (true, { b with state := .half_open }) := by
  unfold should_allow_request
  rw [hs, hl]
  dsimp only
  rw [if_pos ht]

/-- Claim C3: for an Open breaker whose recovery timeout has elapsed, the
next admission check transitions to HalfOpen and admits; the admitted
trial invokes the wrapped operation, and its success closes the breaker
with failure_count 0, while its failure reopens it with last_failure_time
refreshed to the new failure time. -/
theorem open_breaker_recovery_trial (b : CircuitBreaker)
    (t now failTime : Int) (a : α)
    (hs : b.state = .opened) (hl : b.last_failure_time = some t)
    (ht : now - t ≥ b.recovery_timeout) :
    should_allow_request b now = (true, { b with state := .half_open })
  ∧ breaker_call b now (Except.ok a) failTime
      = (.ok a, { b with state := .closed, failure_count := 0 }, 1)
  ∧ breaker_call b now (Except.error () : Except Unit α) failTime
      = (.failed,
         { b with
           state := .opened,
           failure_count := b.failure_count + 1,
           last_failure_time := some failTime }, 1) := by
  have hreq := should_allow_request_open_elapsed b t now hs hl ht
  refine ⟨hreq, ?_, ?_⟩
  · unfold breaker_call
    rw [hreq]
    rfl
  · unfold breaker_call
    rw [hreq]
    rfl

/-- Witness for open_breaker_recovery_trial: the redis breaker opened at
time 100 and called at time 110 admits the trial; success at 110 closes
it, failure at 110 reopens it with the failure time refreshed. -/
theorem open_breaker_recovery_trial_witness :
    should_allow_request
        { redis_circuit_breaker with
          state := .opened, failure_count := 3,
          last_failure_time := some 100 } 110
      = (true,
         { redis_circuit_breaker with
           state := .half_open, failure_count := 3,
           last_failure_time := some 100 })
  ∧ breaker_call
        { redis_circuit_breaker with
          state := .opened, failure_count := 3,
          last_failure_time := some 100 } 110 (Except.ok (7 : Nat)) 110
      = (.ok 7,
         { redis_circuit_breaker with
           state := .closed, failure_count := 0,
           last_failure_time := some 100 }, 1)
  ∧ breaker_call
        { redis_circuit_breaker with
          state := .opened, failure_count := 3,
          last_failure_time := some 100 } 110
        (Except.error () : Except Unit Nat) 110
      = (.failed,
         { redis_circuit_breaker with
           state := .opened, failure_count := 4,
           last_failure_time := some 110 }, 1) :=
  open_breaker_recovery_trial _ 100 110 110 7 rfl rfl (by decide)

/-- Claim C4 is violated by the code: the admission check in state
HalfOpen always answers admit without recording that a trial is in
flight. The database breaker opens at time 100 (threshold 2, recovery 5);
at time 110 the first admission check flips it to HalfOpen and admits,
and before any outcome is recorded a second admission check also admits,
so two calls enter the HalfOpen trial. -/
theorem half_open_admits_second_check :
    (should_allow_request
        { database_circuit_breaker with
          state := .opened, failure_count := 2,
          last_failure_time := some 100 } 110).1 = true
  ∧ (should_allow_request
        { database_circuit_breaker with
          state := .opened, failure_count := 2,
          last_failure_time := some 100 } 110).2.state = .half_open
  ∧ (should_allow_request
        (should_allow_request
          { database_circuit_breaker with
            state := .opened, failure_count := 2,
            last_failure_time := some 100 } 110).2 110).1 = true
  ∧ (should_allow_request
        (should_allow_request
          { database_circuit_breaker with
            state := .opened, failure_count := 2,
            last_failure_time := some 100 } 110).2 110).2.state
      = .half_open := by
  decide

/-- Claim C6: with the breaker Open, cache_get answers a miss with zero
store accesses and cache_set answers false, both leaving the breaker
untouched; with the breaker not Open, a failing store read still answers
a miss while recording a breaker failure (the count increments), and a
failing write makes cache_set answer false. All four paths return
normally instead of raising. -/
theorem cache_degrades_on_outage (bo bc : CircuitBreaker)
    (read : ReadResult α) (wr : WriteResult) (now now2 : Int)
    (ho : bo.state = .opened) (hc : bc.state ≠ .opened) :
    cache_get bo read now = (none, bo, 0)
  ∧ cache_set bo wr now = (false, bo)
  ∧ (cache_get (α := α) bc .store_error now2).1 = none
  ∧ (cache_get (α := α) bc .store_error now2).2.1.failure_count
      = bc.failure_count + 1
  ∧ (cache_set bc .write_error now2).1 = false := by
  refine ⟨?_, ?_, ?_, ?_, ?_⟩
  · simp [cache_get, ho]
  · simp [cache_set, ho]
  · simp only [cache_get, if_neg hc]
  · simp only [cache_get, if_neg hc]
    split <;> rfl
  · simp only [cache_set, if_neg hc]

/-- Witness for cache_degrades_on_outage: an open redis breaker degrades
reads and writes, and a closed redis breaker with one prior failure
records a second failure on a store error. -/
theorem cache_degrades_on_outage_witness :
    cache_get
        { redis_circuit_breaker with
          state := .opened, failure_count := 3,
          last_failure_time := some 100 }
        (ReadResult.found (5 : Nat)) 105
      = (none,
         { redis_circuit_breaker with
           state := .opened, failure_count := 3,
           last_failure_time := some 100 }, 0)
  ∧ cache_set
        { redis_circuit_breaker with
          state := .opened, failure_count := 3,
          last_failure_time := some 100 }
        WriteResult.ok 105
      = (false,
         { redis_circuit_breaker with
           state := .opened, failure_count := 3,
           last_failure_time := some 100 })
  ∧ (cache_get (α := Nat)
        { redis_circuit_breaker with failure_count := 1 }
        .store_error 105).1 = none
  ∧ (cache_get (α := Nat)
        { redis_circuit_breaker with failure_count := 1 }
        .store_error 105).2.1.failure_count
      = ({ redis_circuit_breaker with
           failure_count := 1 } : CircuitBreaker).failure_count + 1
  ∧ (cache_set
        { redis_circuit_breaker with failure_count := 1 }
        .write_error 105).1 = false :=
  cache_degrades_on_outage _ _ (ReadResult.found (5 : Nat)) WriteResult.ok
    105 105 rfl (by decide)

/-- Claim C7: is_token_blacklisted answers true under a store outage
(unreachable client or a lookup error) when fail_closed is left at its
default of true, and answers false in the same outage conditions when the
caller explicitly opts into fail-open with fail_closed = false. -/
theorem token_blacklist_fail_policy (token : String) :
    is_token_blacklisted token .unavailable = true
  ∧ is_token_blacklisted token .store_error = true
  ∧ is_token_blacklisted token .unavailable false = false
  ∧ is_token_blacklisted token .store_error false = false := by
  refine ⟨rfl, rfl, rfl, rfl⟩

/-- Witness for token_blacklist_fail_policy at a concrete token. -/
theorem token_blacklist_fail_policy_witness :
    is_token_blacklisted "tok" .unavailable = true
  ∧ is_token_blacklisted "tok" .store_error = true
  ∧ is_token_blacklisted "tok" .unavailable false = false
  ∧ is_token_blacklisted "tok" .store_error false = false :=
  token_blacklist_fail_policy "tok"

/-- Claim C8: on an entry whose value and companion original-TTL metadata
are both present, cache_get_with_stale always returns the value, and the
stale flag is true exactly when the remaining TTL is positive and
strictly below 20 percent of the original TTL (5 * ttl < original_ttl). -/
theorem cache_get_with_stale_spec (a : α) (ttl original_ttl : Int) :
    (cache_get_with_stale (.found a) ttl (.found original_ttl)).1 = some a
  ∧ ((cache_get_with_stale (.found a) ttl (.found original_ttl)).2 = true
      ↔ 0 < ttl ∧ 5 * ttl < original_ttl) := by
  constructor
  · simp [cache_get_with_stale]
  · simp only [cache_get_with_stale, decide_eq_true_eq]
    constructor
    · rintro ⟨h1, h2⟩
      refine ⟨h1, ?_⟩
      have h2q : (5 : ℚ) * (ttl : ℚ) < (original_ttl : ℚ) := by linarith
      exact_mod_cast h2q
    · rintro ⟨h1, h2⟩
      refine ⟨h1, ?_⟩
      have h2q : ((5 * ttl : Int) : ℚ) < ((original_ttl : Int) : ℚ) := by
        exact_mod_cast h2
      push_cast at h2q
      linarith

/-- Witness for cache_get_with_stale_spec: an entry with 100 seconds of
original TTL and 10 seconds remaining is returned and flagged stale. -/
theorem cache_get_with_stale_spec_witness :
    (cache_get_with_stale (.found (5 : Nat)) 10 (.found 100)).1 = some 5
  ∧ ((cache_get_with_stale (.found (5 : Nat)) 10 (.found 100)).2 = true
      ↔ (0 : Int) < 10 ∧ (5 : Int) * 10 < 100) :=
  cache_get_with_stale_spec (5 : Nat) 10 100

/-- Claim C9 is violated by the code: starting from the fresh redis
breaker (threshold 3), two store errors seen by cache_get leave it Closed
at count 2, and a store error seen by cache_delete then increments the
count to the threshold without opening the breaker, because cache_delete
omits the threshold check that cache_get and cache_set perform. -/
theorem cache_delete_breaks_threshold_invariant :
    ((cache_delete
        (cache_get (α := Nat)
          (cache_get (α := Nat) redis_circuit_breaker .store_error 100).2.1
          .store_error 101).2.1
        .write_error).2.failure_count
      ≥ (cache_delete
          (cache_get (α := Nat)
            (cache_get (α := Nat) redis_circuit_breaker .store_error 100).2.1
            .store_error 101).2.1
          .write_error).2.failure_threshold)
  ∧ (cache_delete
        (cache_get (α := Nat)
          (cache_get (α := Nat) redis_circuit_breaker .store_error 100).2.1
          .store_error 101).2.1
        .write_error).2.state = .closed := by
  decide

/-- Claim C10: with the circuit open inside the recovery window, both
with_circuit_breaker and sync_with_circuit_breaker return the fallback
value only when it is not None (Option.some); an explicit None fallback
still raises CircuitBreakerError, so None cannot serve as a
degrade-to-empty fallback. -/
theorem fallback_only_when_not_none (b : CircuitBreaker) (v : α)
    (t now failTime : Int) (op : Except Unit α)
    (hs : b.state = .opened) (hl : b.last_failure_time = some t)
    (ht : now - t < b.recovery_timeout) :
    with_circuit_breaker_call b (some v) now op failTime = (.ok v, b, 0)
  ∧ with_circuit_breaker_call b (none : Option α) now op failTime
      = (.rejected, b, 0)
  ∧ sync_with_circuit_breaker_call b (some v) now op failTime
      = (.ok v, b, 0)
  ∧ sync_with_circuit_breaker_call b (none : Option α) now op failTime
      = (.rejected, b, 0) := by
  have hrej := breaker_call_open_within b t now failTime op hs hl ht
  refine ⟨?_, ?_, ?_, ?_⟩
  · unfold with_circuit_breaker_call
    rw [hrej]
  · unfold with_circuit_breaker_call
    rw [hrej]
  · unfold sync_with_circuit_breaker_call
    rw [hs, hl]
    dsimp only
    rw [if_pos rfl, if_neg (by omega)]
  · unfold sync_with_circuit_breaker_call
    rw [hs, hl]
    dsimp only
    rw [if_pos rfl, if_neg (by omega)]

/-- Witness for fallback_only_when_not_none: the open redis breaker at
time 105 returns the fallback 42 when one is supplied and rejects when
the fallback is None. -/
theorem fallback_only_when_not_none_witness :
    with_circuit_breaker_call
        { redis_circuit_breaker with
          state := .opened, failure_count := 3,
          last_failure_time := some 100 }
        (some (42 : Nat)) 105 (Except.ok 7) 105
      = (.ok 42,
         { redis_circuit_breaker with
           state := .opened, failure_count := 3,
           last_failure_time := some 100 }, 0)
  ∧ with_circuit_breaker_call
        { redis_circuit_breaker with
          state := .opened, failure_count := 3,
          last_failure_time := some 100 }
        (none : Option Nat) 105 (Except.ok 7) 105
      = (.rejected,
         { redis_circuit_breaker with
           state := .opened, failure_count := 3,
           last_failure_time := some 100 }, 0)
  ∧ sync_with_circuit_breaker_call
        { redis_circuit_breaker with
          state := .opened, failure_count := 3,
          last_failure_time := some 100 }
        (some (42 : Nat)) 105 (Except.ok 7) 105
      = (.ok 42,
         { redis_circuit_breaker with
           state := .opened, failure_count := 3,
           last_failure_time := some 100 }, 0)
  ∧ sync_with_circuit_breaker_call
        { redis_circuit_breaker with
          state := .opened, failure_count := 3,
          last_failure_time := some 100 }
        (none : Option Nat) 105 (Except.ok 7) 105
      = (.rejected,
         { redis_circuit_breaker with
           state := .opened, failure_count := 3,
           last_failure_time := some 100 }, 0) :=
  fallback_only_when_not_none _ 42 100 105 105 (Except.ok 7)
    rfl rfl (by decide)

/-- If every attempt from `attempt` through `attempt + remaining` raises a
retryable error, the loop runs all of them, sleeps the backoff delay
between consecutive attempts, and re-raises the error of the last one. -/
lemma retry_go_all_retryable (bd md eb : ℚ) (op : Nat → Outcome ε α)
    (e : Nat → ε) (remaining : Nat) :
    ∀ attempt,
      (∀ j, j ≤ remaining → op (attempt + j) = .retryable (e (attempt + j))) →
      retry_go bd md eb op attempt remaining
        = (.err (e (attempt + remaining)), remaining + 1,
           (List.range remaining).map (fun j => get_delay bd md eb (attempt + j))) := by
  induction remaining with
  | zero =>
    intro attempt h
    have h0 := h 0 le_rfl
    simp only [Nat.add_zero] at h0 ⊢
    simp [retry_go, h0]
  | succ r ih =>
    intro attempt h
    have h0 := h 0 (by omega)
    simp only [Nat.add_zero] at h0
    have hrec := ih (attempt + 1) (fun j hj => by
      have hh := h (j + 1) (by omega)
      have harith : attempt + (j + 1) = attempt + 1 + j := by omega
      rw [harith] at hh
      exact hh)
    simp only [retry_go, h0, hrec]
    refine congrArg₂ Prod.mk ?_ (congrArg₂ Prod.mk rfl ?_)
    · have : attempt + 1 + r = attempt + (r + 1) := by omega
      rw [this]
    · rw [List.range_succ_eq_map, List.map_cons, List.map_map]
      refine congrArg₂ List.cons ?_ ?_
      · simp [get_delay]
      · refine List.map_congr_left ?_
        intro j _
        have : attempt + 1 + j = attempt + (j + 1) := by omega
        simp [Function.comp, this]

/-- If the first k attempts starting at `attempt` raise retryable errors
and attempt `attempt + k` raises a non-retryable one, the loop stops
right there and propagates that error. -/
lemma retry_go_non_retryable (bd md eb : ℚ) (op : Nat → Outcome ε α)
    (e : Nat → ε) (e2 : ε) (k : Nat) :
    ∀ attempt remaining, k ≤ remaining →
      (∀ j, j < k → op (attempt + j) = .retryable (e (attempt + j))) →
      op (attempt + k) = .non_retryable e2 →
      retry_go bd md eb op attempt remaining
        = (.err e2, k + 1,
           (List.range k).map (fun j => get_delay bd md eb (attempt + j))) := by
  induction k with
  | zero =>
    intro attempt remaining _ _ hk
    simp only [Nat.add_zero] at hk
    cases remaining <;> simp [retry_go, hk]
  | succ n ih =>
    intro attempt remaining hle hretry hk
    obtain ⟨r, rfl⟩ : ∃ r, remaining = r + 1 :=
      ⟨remaining - 1, by omega⟩
    have h0 := hretry 0 (by omega)
    simp only [Nat.add_zero] at h0
    have hrec := ih (attempt + 1) r (by omega)
      (fun j hj => by
        have hh := hretry (j + 1) (by omega)
        have harith : attempt + (j + 1) = attempt + 1 + j := by omega
        rw [harith] at hh
        exact hh)
      (by
        have harith : attempt + (n + 1) = attempt + 1 + n := by omega
        rw [harith] at hk
        exact hk)
    simp only [retry_go, h0, hrec]
    refine congrArg₂ Prod.mk rfl (congrArg₂ Prod.mk rfl ?_)
    rw [List.range_succ_eq_map, List.map_cons, List.map_map]
    refine congrArg₂ List.cons ?_ ?_
    · simp [get_delay]
    · refine List.map_congr_left ?_
      intro j _
      have : attempt + 1 + j = attempt + (j + 1) := by omega
      simp [Function.comp, this]

/-- Claim C5: an operation that fails with a retryable error on every
attempt is invoked exactly max_retries + 1 times, the error of the last
invocation is then re-raised, and the delay slept between attempts i and
i+1 is min(base_delay * exponential_base ^ i, max_delay); an operation
whose attempt k raises a non-retryable error (after k retryable failures)
is stopped after exactly k + 1 invocations with that error propagated;
and with max_retries = 0 there is a single invocation and no delay. -/
theorem retry_with_backoff_spec (N k : Nat) (bd md eb : ℚ)
    (op1 op2 : Nat → Outcome ε α) (errs : Nat → ε) (e2 : ε)
    (h1 : ∀ i, op1 i = .retryable (errs i))
    (hk : k ≤ N)
    (h2a : ∀ j, j < k → op2 j = .retryable (errs j))
    (h2b : op2 k = .non_retryable e2) :
    retry_with_backoff N bd md eb op1
      = (.err (errs N), N + 1, (List.range N).map (get_delay bd md eb))
  ∧ retry_with_backoff N bd md eb op2
      = (.err e2, k + 1, (List.range k).map (get_delay bd md eb))
  ∧ (retry_with_backoff 0 bd md eb op1).2.1 = 1
  ∧ (retry_with_backoff 0 bd md eb op1).2.2 = ([] : List ℚ) := by
  have hall := retry_go_all_retryable bd md eb op1 errs N 0
    (fun j _ => by simpa using h1 j)
  have hnon := retry_go_non_retryable bd md eb op2 errs e2 k 0 N hk
    (fun j hj => by simpa using h2a j hj) (by simpa using h2b)
  have hall0 := retry_go_all_retryable bd md eb op1 errs 0 0
    (fun j hj => by
      have : j = 0 := by omega
      subst this
      simpa using h1 0)
  refine ⟨?_, ?_, ?_, ?_⟩
  · rw [retry_with_backoff, hall]
    simp
  · rw [retry_with_backoff, hnon]
    simp
  · rw [retry_with_backoff, hall0]
  · rw [retry_with_backoff, hall0]
    simp

/-- Witness for retry_with_backoff_spec: with max_retries = 2, base delay
1, max delay 60 and base 2, an always-retryable operation runs 3 times
with delays 1 and 2 and re-raises the last error, while an operation that
raises a non-retryable error on attempt 1 stops after 2 invocations. -/
theorem retry_with_backoff_spec_witness :
    retry_with_backoff 2 1 60 2 (fun i => Outcome.retryable (ε := Nat) (α := Unit) i)
      = (.err 2, 3, (List.range 2).map (get_delay 1 60 2))
  ∧ retry_with_backoff 2 1 60 2
        (fun i => if i < 1 then Outcome.retryable (ε := Nat) (α := Unit) i
          else Outcome.non_retryable 99)
      = (.err 99, 2, (List.range 1).map (get_delay 1 60 2))
  ∧ (retry_with_backoff 0 1 60 2
        (fun i => Outcome.retryable (ε := Nat) (α := Unit) i)).2.1 = 1
  ∧ (retry_with_backoff 0 1 60 2
        (fun i => Outcome.retryable (ε := Nat) (α := Unit) i)).2.2
      = ([] : List ℚ) :=
  retry_with_backoff_spec 2 1 1 60 2
    (fun i => Outcome.retryable i)
    (fun i => if i < 1 then Outcome.retryable i else Outcome.non_retryable 99)
    (fun i => i) 99
    (fun _ => rfl) (by decide)
    (fun j hj => by
      have : j = 0 := by omega
      subst this
      rfl)
    rfl

end BarrierefreiCheck
